import Mathlib

/-!
Shallow embedding of the generation-orchestration core of the line-sticker
application (sources: the service layer with the retry/model-fallback wrapper,
the three run-loop variants of `handleStartGeneration`, the background-removal
pass of `processStickerImage`, the packaging code of `ResultsGrid`, and
`handleRegenerateSingle`).  External effects (network calls, canvas pixel
operations, timers) are modelled by explicit parameters and traces:
a generation call is a function from (identifier, attempt index) to
`Except String String` (the thrown JS `Error.message` on failure), waits are
recorded as data, and the React component state is passed explicitly.

A point that matters for the run-loop models: in the source, the async handler
captures the render-time `state` object.  Updates made through
`setState(prev => ...)` mutate React's live state but never the captured
binding, so every read of `state.results` inside a running handler sees the
snapshot taken when the handler started.  The models therefore carry two
ledgers where the source reads `state.results` mid-run: the immutable
`snapshot` (the captured closure value) and the live `results` list (the value
the functional `setState` updaters act on).
-/

namespace Sticker

/-- Status union of `GeneratedSticker.status` in types.ts:
`'pending' | 'generating' | 'success' | 'error'`. -/
inductive Status where
  | pending
  | generating
  | success
  | error
deriving DecidableEq, BEq, Repr

/-- `StickerPlanItem` of types.ts (the `originalTc`/`originalEn` fields are
display-only toggles and are not read by any orchestration code modelled
here). -/
structure StickerPlanItem where
  id : Nat
  text : String
deriving DecidableEq, Repr

/-- `GeneratedSticker` of types.ts.  `imageUrl` is the raw image payload,
`processedUrl` the composited one; both are `''` until success.  `error` is
the optional failure detail. -/
structure GeneratedSticker where
  id : Nat
  text : String
  imageUrl : String
  processedUrl : String
  status : Status
  error : Option String
deriving DecidableEq, Repr

/-- Kernel-friendly prefix test on character lists (JS `String.startsWith`). -/
def charsStartWith : List Char → List Char → Bool
  | _, [] => true
  | [], _ :: _ => false
  | c :: s, p :: ps => c == p && charsStartWith s ps

/-- Kernel-friendly substring test on character lists (JS `String.includes`). -/
def charsContain : List Char → List Char → Bool
  | [], pat => pat.isEmpty
  | c :: s, pat => charsStartWith (c :: s) pat || charsContain s pat

/-- JS `msg.includes(pat)`. -/
def containsSub (s pat : String) : Bool := charsContain s.data pat.data

/-- JS `s.startsWith(pat)`. -/
def jsStartsWith (s pat : String) : Bool := charsStartWith s.data pat.data

/-- JS `s.substring(0, n)`. -/
def jsTake (s : String) (n : Nat) : String := String.mk (s.data.take n)

/-- JS `s.split(sep)` for a one-character separator, on character lists. -/
def splitOnCharAux (sep : Char) : List Char → List (List Char)
  | [] => [[]]
  | c :: cs =>
    let rest := splitOnCharAux sep cs
    if c == sep then [] :: rest
    else
      match rest with
      | [] => [[c]]
      | h :: t => (c :: h) :: t

/-- JS `u.split(',')[1]` (the base64 part of a data URL); an out-of-range
index yields the empty string. -/
def base64Part (u : String) : String :=
  String.mk ((splitOnCharAux ',' u.data).getD 1 [])

/-! ### Generation client (geminiService, part_003): credential check and the
retry / model-fallback wrapper -/

/-- Error message thrown by `getAI` when `VITE_API_KEY` is missing or empty. -/
def notConfiguredMsg : String :=
  "API Key 尚未設定。請確認 Vercel 環境變數 VITE_API_KEY 已正確設定。"

/-- Error message thrown by `getAI` when the key has the wrong value shape
(a `gen-lang-client` project identifier, or anything not starting with
`AIza`); it embeds the first 10 characters of the supplied key. -/
def wrongShapeMsg (apiKey : String) : String :=
  "您輸入的 Key (" ++ jsTake apiKey 10 ++
    "...) 格式錯誤。請確認您複製的是 \"AIza\" 開頭的 API Key，而不是 Project ID。"

/-- `getAI` of part_003: reads the environment key (`none` = variable absent;
JS falsiness also rejects the empty string), then validates its shape.  The
returned client is represented by the accepted key. -/
def getAI (env : Option String) : Except String String :=
  match env with
  | none => Except.error notConfiguredMsg
  | some apiKey =>
    if apiKey = "" then Except.error notConfiguredMsg
    else if jsStartsWith apiKey "gen-lang-client" || !(jsStartsWith apiKey "AIza") then
      Except.error (wrongShapeMsg apiKey)
    else Except.ok apiKey

/-- The retryable-error classes of `retryWithModelFallback` (part_003 line 56):
`429`, `503`, `RESOURCE_EXHAUSTED`, `quota`, `Overloaded` as substrings of the
error message. -/
def isRetryableServiceMsg (msg : String) : Bool :=
  containsSub msg "429" || containsSub msg "503" ||
    containsSub msg "RESOURCE_EXHAUSTED" || containsSub msg "quota" ||
    containsSub msg "Overloaded"

/-- `IMAGE_MODELS` of part_003 line 33: candidate models in fallback order. -/
def IMAGE_MODELS : List String := ["gemini-2.5-flash-image", "gemini-2.0-flash-exp"]

/-- One attempt as observed from outside: which model, which attempt number
(1-based), and the backoff wait (ms) inserted after the attempt, if any. -/
structure AttemptRec where
  model : String
  attempt : Nat
  waitAfter : Option Nat
deriving DecidableEq, Repr

/-- Outcome of the inner attempt loop for one model: `done` when the wrapper
returns or throws, `exhausted` when the 3 attempts are used up and the
wrapper moves to the next model carrying the last error. -/
inductive InnerOut (α : Type) where
  | done (r : Except String α)
  | exhausted (lastErr : String)

/-- Inner loop of `retryWithModelFallback` (part_003 lines 47-79) for one
model: argument `a` is the current attempt number, the second argument is the
structural fuel (3 at entry; the `a < 3` test mirrors the source).  On a
retryable failure with `a < 3` the wrapper waits `a * 5000 + 2000` ms and
retries the same model; on a retryable failure at `a = 3` it breaks to the
next model; a non-retryable failure is thrown immediately. -/
def runAttempts (op : String → Nat → Except String α) (model : String) :
    Nat → Nat → InnerOut α × List AttemptRec
  | _, 0 => (InnerOut.exhausted "", [])
  | a, n + 1 =>
    match op model a with
    | Except.ok v => (InnerOut.done (Except.ok v), [⟨model, a, none⟩])
    | Except.error msg =>
      if isRetryableServiceMsg msg then
        if a < 3 then
          let next := runAttempts op model (a + 1) n
          (next.1, ⟨model, a, some (a * 5000 + 2000)⟩ :: next.2)
        else (InnerOut.exhausted msg, [⟨model, a, none⟩])
      else (InnerOut.done (Except.error msg), [⟨model, a, none⟩])

/-- Outer loop of `retryWithModelFallback` (part_003 lines 45-83): walk the
candidate models in order; when the last model is exhausted, surface the last
observed error (`lastErr` is `none` only before any attempt, which cannot
reach the final `throw` for a nonempty model list). -/
def runModels (op : String → Nat → Except String α) :
    List String → Option String → Except String α × List AttemptRec
  | [], lastErr => (Except.error (lastErr.getD ""), [])
  | m :: ms, _ =>
    let inner := runAttempts op m 1 3
    match inner.1 with
    | InnerOut.done r => (r, inner.2)
    | InnerOut.exhausted msg =>
      let rest := runModels op ms (some msg)
      (rest.1, inner.2 ++ rest.2)

/-- `retryWithModelFallback` of part_003: the operation is indexed by model
name and attempt number, standing for the environment-determined outcome of
each network call.  Returns the surfaced result and the attempt trace. -/
def retryWithModelFallback (op : String → Nat → Except String α) :
    Except String α × List AttemptRec :=
  runModels op IMAGE_MODELS none

/-- `generateSingleStickerImage` of part_003 (lines 252-338): `getAI` runs
first; only with a valid client does the retry/fallback wrapper issue
attempts.  The per-attempt network outcome is the parameter `op`. -/
def generateSingleStickerImage (env : Option String)
    (op : String → Nat → Except String String) :
    Except String String × List AttemptRec :=
  match getAI env with
  | Except.error e => (Except.error e, [])
  | Except.ok _ => retryWithModelFallback op

/-- `generateStickerGrid` of part_003 (lines 163-247): identical credential
gating and wrapper use as the single-image call. -/
def generateStickerGrid (env : Option String)
    (op : String → Nat → Except String String) :
    Except String String × List AttemptRec :=
  match getAI env with
  | Except.error e => (Except.error e, [])
  | Except.ok _ => retryWithModelFallback op

/-- `generateStickerPlan` of part_003 (lines 93-157): `getAI` runs before the
`try` block, so credential errors propagate untranslated; a failing plan call
whose message mentions `400` or `API key` is rewrapped. -/
def generateStickerPlan (env : Option String)
    (planCall : Except String (List StickerPlanItem)) :
    Except String (List StickerPlanItem) :=
  match getAI env with
  | Except.error e => Except.error e
  | Except.ok _ =>
    match planCall with
    | Except.ok items => Except.ok items
    | Except.error msg =>
      if containsSub msg "400" || containsSub msg "API key" then
        Except.error "API Key 無效。請檢查 Vercel 環境變數 VITE_API_KEY。"
      else Except.error msg

/-! ### Image compositor: background-removal pass of `processStickerImage` -/

/-- One canvas pixel (channel values 0..255; the model does not need the
bound). -/
structure RGBA where
  r : Nat
  g : Nat
  b : Nat
  a : Nat
deriving DecidableEq, Repr

/-- `const threshold = 240` of `processStickerImage`. -/
def whiteThreshold : Nat := 240

/-- The per-pixel body of the background-removal loop (geminiService.ts lines
202-211): when all three colour channels strictly exceed the threshold the
alpha channel is set to 0; otherwise the pixel is untouched. -/
def removeNearWhitePixel (px : RGBA) : RGBA :=
  if whiteThreshold < px.r ∧ whiteThreshold < px.g ∧ whiteThreshold < px.b then
    { px with a := 0 }
  else px

/-- The whole pass over the image data. -/
def removeNearWhiteBackground (data : List RGBA) : List RGBA :=
  data.map removeNearWhitePixel

/-! ### Shared ledger updates (the `setState(prev => ...)` functional updaters) -/

/-- Mark every entry whose id is in `ids` as `generating`
(`batchIds.includes(r.id) ? { ...r, status: 'generating' } : r`). -/
def setGenerating (ids : List Nat) (rs : List GeneratedSticker) : List GeneratedSticker :=
  rs.map fun r => if ids.contains r.id then { r with status := Status.generating } else r

/-- Mark every entry whose id is in `ids` as `error` with the failure detail
(grid strategy: `{ ...r, status: 'error', error: errMsg }`). -/
def markBatchError (ids : List Nat) (msg : String) (rs : List GeneratedSticker) :
    List GeneratedSticker :=
  rs.map fun r =>
    if ids.contains r.id then { r with status := Status.error, error := some msg } else r

/-- Mark every entry whose id is in `ids` as `error` without a detail
(the v2.0.1 parallel strategy: `{ ...r, status: 'error' }`). -/
def markBatchErrorNoDetail (ids : List Nat) (rs : List GeneratedSticker) :
    List GeneratedSticker :=
  rs.map fun r => if ids.contains r.id then { r with status := Status.error } else r

/-- Per-item success update
(`{ ...r, status: 'success', imageUrl: raw, processedUrl: processed }`). -/
def markItemSuccess (id : Nat) (raw processed : String) (rs : List GeneratedSticker) :
    List GeneratedSticker :=
  rs.map fun r =>
    if r.id == id then
      { r with status := Status.success, imageUrl := raw, processedUrl := processed }
    else r

/-! ### Grid-batch strategy (part_000, v2.1.1 `handleStartGeneration`) -/

/-- Success update of the grid strategy (step 4): each entry found among the
processed batch results `(id, raw, processed)` becomes `success` with its
images; other entries are untouched. -/
def markGridSuccess (updates : List (Nat × String × String)) (rs : List GeneratedSticker) :
    List GeneratedSticker :=
  rs.map fun r =>
    match updates.find? (fun u => u.1 == r.id) with
    | some u => { r with status := Status.success, imageUrl := u.2.1, processedUrl := u.2.2 }
    | none => r

/-- One batch iteration of the grid strategy (part_000 lines 454-529, minus
the loop-head abort check handled by the loop): mark the batch `generating`;
when the `generateGrid` call succeeds, slice the composite, composite each
slice and mark successes; when it fails, mark the whole batch `error` with
the failure detail (`error.message || "生成失敗"`).  `gridGen` is the resolved
outcome of the `generateStickerGrid` call, `sliceF` models `sliceImageGrid`
and `proc` models `processStickerImage`. -/
def gridBatchStep (gridGen : Except String String)
    (sliceF : String → Nat → List String) (proc : String → String → String)
    (batch : List StickerPlanItem) (rs : List GeneratedSticker) : List GeneratedSticker :=
  let batchIds := batch.map (·.id)
  let rs1 := setGenerating batchIds rs
  match gridGen with
  | Except.ok gridImg =>
    let sliced := sliceF gridImg batch.length
    let processedResults := sliced.enum.filterMap fun p =>
      (batch.get? p.1).map fun item => (item.id, p.2, proc p.2 item.text)
    markGridSuccess processedResults rs1
  | Except.error e =>
    markBatchError batchIds (if e = "" then "生成失敗" else e) rs1

/-- The grid-strategy run loop over the already-chunked batches.  `aborted k`
is the value of `abortControllerRef.current.signal.aborted` observed at the
loop-head checkpoint before batch `k` (the source also re-checks the signal
after the await points inside a batch; for the cancellation schedules stated
about this model — the signal set only during an inter-batch wait — those
inner checkpoints observe the same value as the head check of the batch).
Returns the final ledger and the trace of batch indices whose `generateGrid`
request was issued. -/
def runGridBatchesAux (aborted : Nat → Bool) (gridGen : Nat → Except String String)
    (sliceF : String → Nat → List String) (proc : String → String → String) :
    List (List StickerPlanItem) → Nat → List GeneratedSticker →
      List GeneratedSticker × List Nat
  | [], _, rs => (rs, [])
  | b :: bs, k, rs =>
    if aborted k then (rs, [])
    else
      let next := runGridBatchesAux aborted gridGen sliceF proc bs (k + 1)
        (gridBatchStep (gridGen k) sliceF proc b rs)
      (next.1, k :: next.2)

/-- Cancellation signalled during the inter-batch wait that follows batch `c`:
every checkpoint from batch `c + 1` on observes the signal. -/
def cancelDuringWaitAfter (c : Nat) : Nat → Bool := fun k => decide (c < k)

/-- The never-signalled schedule. -/
def noCancel : Nat → Bool := fun _ => false

/-! ### Small-parallel-batch strategy (part_001, v2.0.1 `handleStartGeneration`) -/

/-- The retryable-error test of the v2.0.1 run loop (part_001 line 177):
`429`, `Exhausted` or `quota` as substrings. -/
def isRetryableAppMsg (msg : String) : Bool :=
  containsSub msg "429" || containsSub msg "Exhausted" || containsSub msg "quota"

/-- The idempotent-resume check (part_001 lines 148-149): look the item up in
the captured `state.results` snapshot and skip when that snapshot entry is
`success`.  Note the lookup is against the snapshot, not the live ledger. -/
def snapshotIsSuccess (snapshot : List GeneratedSticker) (id : Nat) : Bool :=
  match snapshot.find? (fun r => r.id == id) with
  | some r => r.status == Status.success
  | none => false

/-- Run state threaded through a v2.0.1 run: the live ledger (the value the
functional `setState` updaters act on) and the trace of issued
`generateSingleStickerImage` calls (by item id, in order). -/
structure ParRunSt where
  results : List GeneratedSticker
  calls : List Nat
deriving DecidableEq, Repr

/-- One batch member of the v2.0.1 `Promise.all` (part_001 lines 147-169):
skip when the snapshot says `success`; otherwise issue the generation call
(whose outcome `gen` is indexed by item id and by how many calls this run has
already made for that id), and on success composite and record the item as
`success` in the live ledger.  Returns the new state and the member's
rejection reason, if any. -/
def runParMember (gen : Nat → Nat → Except String String) (proc : String → String → String)
    (snapshot : List GeneratedSticker) (item : StickerPlanItem) (st : ParRunSt) :
    ParRunSt × Option String :=
  if snapshotIsSuccess snapshot item.id then (st, none)
  else
    let k := st.calls.count item.id
    let st1 : ParRunSt := { st with calls := st.calls ++ [item.id] }
    match gen item.id k with
    | Except.error e => (st1, some e)
    | Except.ok raw =>
      let processed := proc raw item.text
      ({ st1 with results := markItemSuccess item.id raw processed st1.results }, none)

/-- One `Promise.all` over the batch.  The members are folded in batch order;
all members run (a rejection does not cancel the others, so their success
updates still land), and the batch rejects with the first rejection. -/
def runParBatchOnce (gen : Nat → Nat → Except String String)
    (proc : String → String → String) (snapshot : List GeneratedSticker)
    (batch : List StickerPlanItem) (st : ParRunSt) : ParRunSt × Option String :=
  batch.foldl
    (fun acc item =>
      let step := runParMember gen proc snapshot item acc.1
      (step.1, acc.2 <|> step.2))
    (st, none)

/-- The v2.0.1 per-batch retry loop (part_001 lines 140-192),
`while (!batchSuccess && retryCount < 3)`: fuel counts the remaining loop
iterations (3 at entry).  A retryable batch failure waits 15 s (not
observable in this model) and retries the whole batch; a non-retryable one
marks the whole batch `error` and finishes the batch.  When the fuel runs out
the loop exits with `batchSuccess = false` — and the source performs no
further update in that case.  The returned Bool is `batchSuccess`. -/
def runParBatchRetries (gen : Nat → Nat → Except String String)
    (proc : String → String → String) (snapshot : List GeneratedSticker)
    (batch : List StickerPlanItem) : Nat → ParRunSt → ParRunSt × Bool
  | 0, st => (st, false)
  | fuel + 1, st =>
    match runParBatchOnce gen proc snapshot batch st with
    | (st1, none) => (st1, true)
    | (st1, some msg) =>
      if isRetryableAppMsg msg then
        runParBatchRetries gen proc snapshot batch fuel st1
      else
        ({ st1 with results := markBatchErrorNoDetail (batch.map (·.id)) st1.results }, true)

/-- `plan.slice(i, i + n)` chunking of the run loops, fuel-indexed so that
evaluation stays kernel-reducible. -/
def chunksOfAux (n : Nat) : Nat → List α → List (List α)
  | 0, _ => []
  | _, [] => []
  | fuel + 1, x :: xs => (x :: xs.take (n - 1)) :: chunksOfAux n fuel (xs.drop (n - 1))

/-- The plan split into consecutive batches of size `n`. -/
def chunksOf (n : Nat) (l : List α) : List (List α) := chunksOfAux n l.length l

/-- The v2.0.1 outer loop over the batches (no cancellation is signalled in
this model; the claims stated about it concern runs that complete without
cancellation).  The discarded `batchSuccess` mirrors the source, which never
reads it after the retry loop. -/
def runParBatches (gen : Nat → Nat → Except String String)
    (proc : String → String → String) (snapshot : List GeneratedSticker) :
    List (List StickerPlanItem) → ParRunSt → ParRunSt
  | [], st => st
  | b :: bs, st =>
    let st1 : ParRunSt := { st with results := setGenerating (b.map (·.id)) st.results }
    let st2 := (runParBatchRetries gen proc snapshot b 3 st1).1
    runParBatches gen proc snapshot bs st2

/-- `handleStartGeneration` of part_001 (v2.0.1, small-parallel-batch,
`BATCH_SIZE = 3`): build the fresh all-`pending` ledger, then drive the
batches.  `snapshot` is the `state.results` value captured by the handler's
closure when it was invoked (for a fresh run this is the pre-run results
list, i.e. `[]` — the `setState` that installs the initial ledger does not
change the captured binding). -/
def handleStartGeneration (gen : Nat → Nat → Except String String)
    (proc : String → String → String) (snapshot : List GeneratedSticker)
    (plan : List StickerPlanItem) : ParRunSt :=
  let initialResults : List GeneratedSticker := plan.map fun item =>
    { id := item.id, text := item.text, imageUrl := "", processedUrl := "",
      status := Status.pending, error := none }
  runParBatches gen proc snapshot (chunksOf 3 plan)
    { results := initialResults, calls := [] }

/-! ### Regenerate one item (part_000 v2.1.1 `handleRegenerateSingle`) -/

/-- `AppState` of types.ts (the fields the orchestration reads or writes;
`step` keeps its string union). -/
structure AppState where
  step : String
  referenceImage : Option String
  selectedStyleId : String
  count : Nat
  usageContext : String
  stickerPlan : List StickerPlanItem
  results : List GeneratedSticker
  isThinking : Bool
  progress : Nat
deriving DecidableEq, Repr

/-- `handleRegenerateSingle` (part_000 lines 542-579): look the id up in the
plan and return immediately when absent; otherwise mark the entry
`generating`, run the single-image call (`gen` is its resolved outcome) and
either record success with both images or record `error` with the message.
The second component counts issued generation calls. -/
def handleRegenerateSingle (st : AppState) (id : Nat)
    (gen : Except String String) (proc : String → String → String) : AppState × Nat :=
  match st.stickerPlan.find? (fun p => p.id == id) with
  | none => (st, 0)
  | some item =>
    let st1 : AppState := { st with results := st.results.map fun r =>
      if r.id == id then { r with status := Status.generating } else r }
    match gen with
    | Except.ok raw =>
      let processed := proc raw item.text
      ({ st1 with results := st1.results.map fun r =>
        if r.id == id then
          { r with status := Status.success, imageUrl := raw, processedUrl := processed }
        else r }, 1)
    | Except.error msg =>
      ({ st1 with results := st1.results.map fun r =>
        if r.id == id then { r with status := Status.error, error := some msg }
        else r }, 1)

/-! ### Packaging (`handleDownloadAll` of ResultsGrid.tsx) -/

/-- The filter `s.status === 'success' && s.processedUrl`. -/
def isPackagedSuccess (s : GeneratedSticker) : Bool :=
  s.status == Status.success && s.processedUrl != ""

/-- The per-item archive file name: `sticker_<id + 1>.png`. -/
def stickerFileName (id : Nat) : String :=
  "sticker_" ++ toString (id + 1) ++ ".png"

/-- `handleDownloadAll` (ResultsGrid.tsx lines 24-54) as the list of archive
entries (name, base64 payload) in insertion order: one `sticker_<id+1>.png`
per successful item with a processed image, then — when at least one item
succeeded — `main.png` (the first success resized to 240×240) and `tab.png`
(resized to 96×74).  `resize` models `createResizedVariant`. -/
def handleDownloadAll (resize : String → Nat → Nat → String)
    (stickers : List GeneratedSticker) : List (String × String) :=
  let successStickers := stickers.filter isPackagedSuccess
  let itemFiles := successStickers.map fun s =>
    (stickerFileName s.id, base64Part s.processedUrl)
  match successStickers with
  | [] => itemFiles
  | first :: _ =>
    itemFiles ++
      [("main.png", base64Part (resize first.processedUrl 240 240)),
       ("tab.png", base64Part (resize first.processedUrl 96 74))]

/-! ### Concrete fixtures used by the run-loop evidence theorems -/

/-- Compositing model used by the concrete runs: a pure, injective pairing of
raw image and caption. -/
def procConcat : String → String → String := fun raw txt => raw ++ "+" ++ txt

/-- Two-item plan that fits in one v2.0.1 batch. -/
def planC1 : List StickerPlanItem := [⟨0, "happy"⟩, ⟨1, "sad"⟩]

/-- Generation schedule for the idempotent-resume run: item 0 succeeds on
every call (with a different payload the second time, as a generation call is
not deterministic); item 1 fails once with a retryable quota error, then
succeeds. -/
def genC1 : Nat → Nat → Except String String := fun id k =>
  if id == 0 then (if k == 0 then Except.ok "img0" else Except.ok "img0-second")
  else (if k == 0 then Except.error "429 quota" else Except.ok "img1")

/-- The fresh-run initial ledger for `planC1` after the batch is marked
`generating`, paired with an empty call trace: the state in which the first
`Promise.all` of the run starts. -/
def stC1 : ParRunSt :=
  { results := setGenerating [0, 1] (planC1.map fun item =>
      { id := item.id, text := item.text, imageUrl := "", processedUrl := "",
        status := Status.pending, error := none }),
    calls := [] }

/-- One-item plan for the retry-exhaustion run. -/
def planC2 : List StickerPlanItem := [⟨0, "happy"⟩]

/-- Generation schedule that always fails with a retryable error. -/
def genC2 : Nat → Nat → Except String String :=
  fun _ _ => Except.error "429 RESOURCE_EXHAUSTED quota"

/-! ## Helper lemmas -/

/-- Every attempt record produced by the inner loop for one model carries
that model, a wait only after a retryable failure with the source's backoff
amount, and no wait after a non-retryable failure. -/
theorem runAttempts_waits (op : String → Nat → Except String String) (model : String) :
    ∀ (n a : Nat) (rec : AttemptRec), rec ∈ (runAttempts op model a n).2 →
      rec.model = model ∧
      (∀ w, rec.waitAfter = some w →
        w = rec.attempt * 5000 + 2000 ∧ rec.attempt < 3 ∧
        ∃ e, op model rec.attempt = Except.error e ∧ isRetryableServiceMsg e = true) ∧
      (∀ e, op model rec.attempt = Except.error e → isRetryableServiceMsg e = false →
        rec.waitAfter = none) := by
  intro n
  induction n with
  | zero =>
    intro a rec h
    simp [runAttempts] at h
  | succ n ih =>
    intro a rec h
    simp only [runAttempts] at h
    cases hop : op model a with
    | ok v =>
      rw [hop] at h
      simp at h
      subst h
      refine ⟨rfl, ?_, ?_⟩
      · intro w hw
        simp at hw
      · intro e _ _
        rfl
    | error msg =>
      rw [hop] at h
      by_cases hret : isRetryableServiceMsg msg = true
      · by_cases ha : a < 3
        · simp [hret, ha] at h
          rcases h with h | h
          · subst h
            refine ⟨rfl, ?_, ?_⟩
            · intro w hw
              simp at hw
              refine ⟨hw.symm, ha, msg, hop, hret⟩
            · intro e he hnret
              rw [hop] at he
              injection he with he'
              subst he'
              rw [hret] at hnret
              cases hnret
          · exact ih (a + 1) rec h
        · simp [hret, ha] at h
          subst h
          refine ⟨rfl, ?_, fun e _ _ => rfl⟩
          intro w hw
          simp at hw
      · simp [hret] at h
        subst h
        refine ⟨rfl, ?_, fun e _ _ => rfl⟩
        intro w hw
        simp at hw

/-- Lifting of `runAttempts_waits` through the model-fallback loop. -/
theorem runModels_waits (op : String → Nat → Except String String) :
    ∀ (ms : List String) (lastErr : Option String) (rec : AttemptRec),
      rec ∈ (runModels op ms lastErr).2 →
      (∀ w, rec.waitAfter = some w →
        w = rec.attempt * 5000 + 2000 ∧ rec.attempt < 3 ∧
        ∃ e, op rec.model rec.attempt = Except.error e ∧ isRetryableServiceMsg e = true) ∧
      (∀ e, op rec.model rec.attempt = Except.error e → isRetryableServiceMsg e = false →
        rec.waitAfter = none) := by
  intro ms
  induction ms with
  | nil =>
    intro le rec h
    simp [runModels] at h
  | cons m ms ih =>
    intro le rec h
    simp only [runModels] at h
    cases hout : (runAttempts op m 1 3).1 with
    | done r =>
      rw [hout] at h
      simp at h
      obtain ⟨hm, h1, h2⟩ := runAttempts_waits op m 3 1 rec h
      rw [← hm] at h1 h2
      exact ⟨h1, h2⟩
    | exhausted msg =>
      rw [hout] at h
      simp at h
      rcases h with h | h
      · obtain ⟨hm, h1, h2⟩ := runAttempts_waits op m 3 1 rec h
        rw [← hm] at h1 h2
        exact ⟨h1, h2⟩
      · exact ih (some msg) rec h

/-- A batch index appears in the issued-request trace of the grid loop only
if the cancellation signal was observed `false` at that batch's checkpoint. -/
theorem runGrid_issued_unsignalled (aborted : Nat → Bool)
    (gridGen : Nat → Except String String) (sliceF : String → Nat → List String)
    (proc : String → String → String) :
    ∀ (bs : List (List StickerPlanItem)) (k : Nat) (rs : List GeneratedSticker) (j : Nat),
      j ∈ (runGridBatchesAux aborted gridGen sliceF proc bs k rs).2 → aborted j = false := by
  intro bs
  induction bs with
  | nil =>
    intro k rs j hj
    simp [runGridBatchesAux] at hj
  | cons b bs ih =>
    intro k rs j hj
    simp only [runGridBatchesAux] at hj
    cases hab : aborted k with
    | true => simp [hab] at hj
    | false =>
      simp [hab] at hj
      rcases hj with rfl | hj
      · exact hab
      · exact ih _ _ _ hj

/-- With the signal raised during the inter-batch wait after batch `c`, the
grid loop behaves exactly like an uncancelled run over the first `c + 1`
batches. -/
theorem runGrid_cancel_truncates (c : Nat) (gridGen : Nat → Except String String)
    (sliceF : String → Nat → List String) (proc : String → String → String) :
    ∀ (bs : List (List StickerPlanItem)) (k : Nat) (rs : List GeneratedSticker),
      runGridBatchesAux (cancelDuringWaitAfter c) gridGen sliceF proc bs k rs =
        runGridBatchesAux noCancel gridGen sliceF proc (bs.take (c + 1 - k)) k rs := by
  intro bs
  induction bs with
  | nil =>
    intro k rs
    simp [runGridBatchesAux]
  | cons b bs ih =>
    intro k rs
    by_cases h : c < k
    · have h0 : c + 1 - k = 0 := by omega
      simp [runGridBatchesAux, cancelDuringWaitAfter, h, h0]
    · have h1 : c + 1 - k = (c - k) + 1 := by omega
      have h2 : c + 1 - (k + 1) = c - k := by omega
      have key := ih (k + 1) (gridBatchStep (gridGen k) sliceF proc b rs)
      rw [h2] at key
      rw [h1, List.take_succ_cons]
      simp only [runGridBatchesAux, cancelDuringWaitAfter, noCancel]
      simp [h, key]

/-! ## Claims -/

/-- C1: the idempotent-resume claim fails on the v2.0.1 run loop.  On a fresh
run the captured `state.results` snapshot is the pre-run (empty) ledger, so
the success-skip check never sees in-run successes: after the first
`Promise.all` item 0 is `success` with image `img0` in the live ledger, yet
the whole-batch retry (triggered by item 1's retryable `429 quota` failure)
re-issues item 0's generation call — two calls land for item 0 and its
`imageUrl` is overwritten from `img0` to `img0-second`. -/
theorem claim1_idempotent_resume_violated :
    ((runParBatchOnce genC1 procConcat [] planC1 stC1).1.results.find? (fun r => r.id == 0)) =
      some ⟨0, "happy", "img0", "img0+happy", Status.success, none⟩ ∧
    (handleStartGeneration genC1 procConcat [] planC1).calls = [0, 1, 0, 1] ∧
    (handleStartGeneration genC1 procConcat [] planC1).calls.count 0 = 2 ∧
    ((handleStartGeneration genC1 procConcat [] planC1).results.find?
        (fun r => r.id == 0)).map (·.imageUrl) = some "img0-second" := by
  decide

/-- C2: the terminal-coverage claim fails on the v2.0.1 run loop.  With a
one-item plan whose every generation call fails with a retryable error, the
per-batch retry budget (3 attempts) is exhausted, the retry loop exits with
`batchSuccess = false`, and the source marks nothing — the run loop finishes
(no cancellation, no fatal error) with the item still `generating`, which is
not a terminal status. -/
theorem claim2_terminal_coverage_violated :
    (handleStartGeneration genC2 procConcat [] planC2).results =
      [⟨0, "happy", "", "", Status.generating, none⟩] ∧
    (handleStartGeneration genC2 procConcat [] planC2).calls = [0, 0, 0] ∧
    Status.generating ≠ Status.success ∧ Status.generating ≠ Status.error := by
  decide

/-- C3: when every attempt fails with a retryable error, the retry /
model-fallback wrapper performs exactly `3 × (number of candidate models)`
attempts, three per model in list order, and surfaces the last observed error
(the third failure of the last model). -/
theorem claim3_retry_fallback_bound (err : String → Nat → String)
    (op : String → Nat → Except String String)
    (hop : ∀ m a, op m a = Except.error (err m a))
    (hret : ∀ m a, isRetryableServiceMsg (err m a) = true) :
    (retryWithModelFallback op).2.length = 3 * IMAGE_MODELS.length ∧
    (retryWithModelFallback op).2.map (fun r => (r.model, r.attempt)) =
      [("gemini-2.5-flash-image", 1), ("gemini-2.5-flash-image", 2),
       ("gemini-2.5-flash-image", 3), ("gemini-2.0-flash-exp", 1),
       ("gemini-2.0-flash-exp", 2), ("gemini-2.0-flash-exp", 3)] ∧
    (retryWithModelFallback op).1 = Except.error (err "gemini-2.0-flash-exp" 3) := by
  have h1 : ∀ m, runAttempts op m 1 3 =
      (InnerOut.exhausted (err m 3),
        [⟨m, 1, some 7000⟩, ⟨m, 2, some 12000⟩, ⟨m, 3, none⟩]) := by
    intro m
    simp [runAttempts, hop, hret]
  refine ⟨?_, ?_, ?_⟩ <;>
    simp [retryWithModelFallback, IMAGE_MODELS, runModels, h1]

/-- Witness for C3 at the always-`429` operation. -/
theorem claim3_retry_fallback_bound_witness :
    (retryWithModelFallback (fun _ _ => (Except.error "429" : Except String String))).2.length =
      3 * IMAGE_MODELS.length ∧
    (retryWithModelFallback (fun _ _ => (Except.error "429" : Except String String))).2.map
        (fun r => (r.model, r.attempt)) =
      [("gemini-2.5-flash-image", 1), ("gemini-2.5-flash-image", 2),
       ("gemini-2.5-flash-image", 3), ("gemini-2.0-flash-exp", 1),
       ("gemini-2.0-flash-exp", 2), ("gemini-2.0-flash-exp", 3)] ∧
    (retryWithModelFallback (fun _ _ => (Except.error "429" : Except String String))).1 =
      Except.error "429" :=
  claim3_retry_fallback_bound (fun _ _ => "429") (fun _ _ => Except.error "429")
    (fun _ _ => rfl) (fun _ _ => rfl)

/-- C4: for every attempt record of any run of the retry / model-fallback
wrapper, a backoff wait follows the attempt only when that attempt failed
with a retryable error and the same model is about to be retried
(`attempt < 3`), and the wait is exactly `attempt × 5000 + 2000` ms (7 s then
12 s); after a non-retryable failure no wait is inserted. -/
theorem claim4_backoff_timing (op : String → Nat → Except String String)
    (rec : AttemptRec) (hmem : rec ∈ (retryWithModelFallback op).2) :
    (∀ w, rec.waitAfter = some w →
      w = rec.attempt * 5000 + 2000 ∧ rec.attempt < 3 ∧
      ∃ e, op rec.model rec.attempt = Except.error e ∧ isRetryableServiceMsg e = true) ∧
    (∀ e, op rec.model rec.attempt = Except.error e → isRetryableServiceMsg e = false →
      rec.waitAfter = none) :=
  runModels_waits op IMAGE_MODELS none rec hmem

/-- Witness for C4: the first attempt of the always-`429` run carries the 7 s
backoff. -/
theorem claim4_backoff_timing_witness :
    (⟨"gemini-2.5-flash-image", 1, some 7000⟩ : AttemptRec) ∈
      (retryWithModelFallback (fun _ _ => (Except.error "429" : Except String String))).2 ∧
    7000 = 1 * 5000 + 2000 :=
  ⟨by decide,
    ((claim4_backoff_timing (fun _ _ => Except.error "429")
      ⟨"gemini-2.5-flash-image", 1, some 7000⟩ (by decide)).1 7000 rfl).1⟩

/-- C7: in the background-removal pass (threshold 240) the red, green and
blue channels are never changed; alpha is zeroed exactly when all three
channels strictly exceed 240, so an R=G=B=241 pixel becomes fully
transparent while R=G=B=239 and the exact boundary value R=G=B=240 stay
entirely unchanged. -/
theorem claim7_background_removal_boundary :
    (∀ px : RGBA,
      ((removeNearWhitePixel px).r = px.r ∧ (removeNearWhitePixel px).g = px.g ∧
        (removeNearWhitePixel px).b = px.b) ∧
      (whiteThreshold < px.r ∧ whiteThreshold < px.g ∧ whiteThreshold < px.b →
        (removeNearWhitePixel px).a = 0) ∧
      (¬(whiteThreshold < px.r ∧ whiteThreshold < px.g ∧ whiteThreshold < px.b) →
        removeNearWhitePixel px = px)) ∧
    (∀ a0 : Nat, (removeNearWhitePixel ⟨241, 241, 241, a0⟩).a = 0) ∧
    removeNearWhitePixel ⟨239, 239, 239, 255⟩ = ⟨239, 239, 239, 255⟩ ∧
    removeNearWhitePixel ⟨240, 240, 240, 255⟩ = ⟨240, 240, 240, 255⟩ := by
  refine ⟨fun px => ⟨⟨?_, ?_, ?_⟩, ?_, ?_⟩, fun a0 => ?_, by decide, by decide⟩
  · simp only [removeNearWhitePixel]
    split <;> rfl
  · simp only [removeNearWhitePixel]
    split <;> rfl
  · simp only [removeNearWhitePixel]
    split <;> rfl
  · intro h
    simp [removeNearWhitePixel, h]
  · intro h
    simp [removeNearWhitePixel, h]
  · simp [removeNearWhitePixel, whiteThreshold]

/-- Witness for C7 at a concrete near-white pixel. -/
theorem claim7_background_removal_boundary_witness :
    (whiteThreshold < 250 ∧ whiteThreshold < 251 ∧ whiteThreshold < 252) ∧
    (removeNearWhitePixel ⟨250, 251, 252, 9⟩).a = 0 :=
  ⟨by decide,
    (claim7_background_removal_boundary.1 ⟨250, 251, 252, 9⟩).2.1 (by decide)⟩

/-- C8: with the API key absent every Generation Client operation (plan,
single image, grid) fails at client initialization with the descriptive
not-configured error and issues zero attempts; with a project-identifier
shaped key each fails with the distinct wrong-shape error (again zero
attempts), and the two messages differ. -/
theorem claim8_credential_fail_fast (op : String → Nat → Except String String)
    (planCall : Except String (List StickerPlanItem)) :
    generateStickerPlan none planCall = Except.error notConfiguredMsg ∧
    generateSingleStickerImage none op = (Except.error notConfiguredMsg, []) ∧
    generateStickerGrid none op = (Except.error notConfiguredMsg, []) ∧
    generateStickerPlan (some "gen-lang-client-123456") planCall =
      Except.error (wrongShapeMsg "gen-lang-client-123456") ∧
    generateSingleStickerImage (some "gen-lang-client-123456") op =
      (Except.error (wrongShapeMsg "gen-lang-client-123456"), []) ∧
    generateStickerGrid (some "gen-lang-client-123456") op =
      (Except.error (wrongShapeMsg "gen-lang-client-123456"), []) ∧
    wrongShapeMsg "gen-lang-client-123456" ≠ notConfiguredMsg := by
  have hk : getAI (some "gen-lang-client-123456") =
      Except.error (wrongShapeMsg "gen-lang-client-123456") := rfl
  refine ⟨rfl, rfl, rfl, ?_, ?_, ?_, by decide⟩ <;>
    simp [generateStickerPlan, generateSingleStickerImage, generateStickerGrid, hk]

/-- C5: when the `generateGrid` call for a batch fails, every item of that
batch ends the batch iteration in status `error` carrying the same error
detail (the thrown message, or the fallback text for an empty message), and
none of them ends in `success`; entries outside the batch are left exactly as
they were. -/
theorem claim5_grid_batch_atomicity (e : String)
    (sliceF : String → Nat → List String) (proc : String → String → String)
    (batch : List StickerPlanItem) (rs : List GeneratedSticker) (r : GeneratedSticker)
    (hr : r ∈ gridBatchStep (Except.error e) sliceF proc batch rs) :
    ((batch.map (·.id)).contains r.id = true →
      r.status = Status.error ∧ r.error = some (if e = "" then "生成失敗" else e) ∧
      r.status ≠ Status.success) ∧
    ((batch.map (·.id)).contains r.id = false → r ∈ rs) := by
  simp only [gridBatchStep, markBatchError, setGenerating, List.mem_map] at hr
  obtain ⟨r1, ⟨r0, hr0, rfl⟩, rfl⟩ := hr
  by_cases h : (batch.map (·.id)).contains r0.id = true
  · rw [if_pos h]
    dsimp only
    rw [if_pos h]
    exact ⟨fun _ => ⟨rfl, rfl, by simp⟩, fun hc => absurd h (by simpa using hc)⟩
  · rw [if_neg h]
    rw [if_neg h]
    exact ⟨fun hc => absurd hc h, fun _ => hr0⟩

/-- Witness for C5 at a one-item batch whose grid call fails with `boom`. -/
theorem claim5_grid_batch_atomicity_witness :
    (⟨0, "a", "", "", Status.error, some "boom"⟩ : GeneratedSticker) ∈
      gridBatchStep (Except.error "boom") (fun _ _ => []) (fun x _ => x) [⟨0, "a"⟩]
        [⟨0, "a", "", "", Status.pending, none⟩] ∧
    (⟨0, "a", "", "", Status.error, some "boom"⟩ : GeneratedSticker).status = Status.error :=
  ⟨by decide,
    ((claim5_grid_batch_atomicity "boom" (fun _ _ => []) (fun x _ => x) [⟨0, "a"⟩]
      [⟨0, "a", "", "", Status.pending, none⟩] ⟨0, "a", "", "", Status.error, some "boom"⟩
      (by decide)).1 (by decide)).1⟩

/-- C6: with the cancellation signal set during the inter-batch wait that
follows batch `c`, the grid run loop issues no generation request for any
batch beyond `c` (every issued batch index is at most `c`), and the whole run
— final ledger included — coincides with an uncancelled run over only the
first `c + 1` batches, so already-resolved entries keep their last known
state. -/
theorem claim6_cancellation_checkpoint (c : Nat) (gridGen : Nat → Except String String)
    (sliceF : String → Nat → List String) (proc : String → String → String)
    (batches : List (List StickerPlanItem)) (rs : List GeneratedSticker) :
    (∀ j ∈ (runGridBatchesAux (cancelDuringWaitAfter c) gridGen sliceF proc batches 0 rs).2,
      j ≤ c) ∧
    runGridBatchesAux (cancelDuringWaitAfter c) gridGen sliceF proc batches 0 rs =
      runGridBatchesAux noCancel gridGen sliceF proc (batches.take (c + 1)) 0 rs := by
  constructor
  · intro j hj
    have h := runGrid_issued_unsignalled (cancelDuringWaitAfter c) gridGen sliceF proc
      batches 0 rs j hj
    simp [cancelDuringWaitAfter] at h
    omega
  · simpa using runGrid_cancel_truncates c gridGen sliceF proc batches 0 rs

/-- Witness for C6: cancelling during the wait after batch 0 of a two-batch
plan still lets batch 0's request happen (index 0 is in the trace and
satisfies the bound). -/
theorem claim6_cancellation_checkpoint_witness :
    0 ∈ (runGridBatchesAux (cancelDuringWaitAfter 0) (fun _ => Except.error "x")
      (fun _ _ => []) (fun x _ => x) [[⟨0, "a"⟩], [⟨1, "b"⟩]] 0 []).2 ∧ 0 ≤ 0 :=
  ⟨by decide,
    (claim6_cancellation_checkpoint 0 (fun _ => Except.error "x") (fun _ _ => [])
      (fun x _ => x) [[⟨0, "a"⟩], [⟨1, "b"⟩]] []).1 0 (by decide)⟩

/-- C9: the archive built by `handleDownloadAll` holds exactly one
`sticker_<id+1>.png` entry per `success` item with a processed image, nothing
for any other item (every entry is either such a per-item file or one of the
two fixed names), and — as soon as one item succeeded — exactly the two
derived entries `main.png` (first success resized to 240×240) and `tab.png`
(first success resized to 96×74). -/
theorem claim9_packaging_naming (resize : String → Nat → Nat → String)
    (stickers : List GeneratedSticker) :
    (∀ s ∈ stickers.filter isPackagedSuccess,
      (stickerFileName s.id, base64Part s.processedUrl) ∈ handleDownloadAll resize stickers) ∧
    (∀ f ∈ handleDownloadAll resize stickers,
      (∃ s ∈ stickers.filter isPackagedSuccess,
        f = (stickerFileName s.id, base64Part s.processedUrl)) ∨
      f.1 = "main.png" ∨ f.1 = "tab.png") ∧
    (handleDownloadAll resize stickers).length =
      (stickers.filter isPackagedSuccess).length +
        (if (stickers.filter isPackagedSuccess).isEmpty then 0 else 2) ∧
    (stickers.filter isPackagedSuccess = [] → handleDownloadAll resize stickers = []) ∧
    (∀ first rest, stickers.filter isPackagedSuccess = first :: rest →
      ("main.png", base64Part (resize first.processedUrl 240 240)) ∈
        handleDownloadAll resize stickers ∧
      ("tab.png", base64Part (resize first.processedUrl 96 74)) ∈
        handleDownloadAll resize stickers) := by
  cases hfs : stickers.filter isPackagedSuccess with
  | nil =>
    refine ⟨?_, ?_, ?_, ?_, ?_⟩ <;> simp [handleDownloadAll, hfs]
  | cons f0 rest0 =>
    refine ⟨?_, ?_, ?_, ?_, ?_⟩
    · intro s hs
      simp only [handleDownloadAll, hfs]
      exact List.mem_append_left _ (List.mem_map_of_mem _ hs)
    · intro f hf
      simp only [handleDownloadAll, hfs, List.mem_append] at hf
      rcases hf with hf | hf
      · left
        rw [List.mem_map] at hf
        obtain ⟨s, hs, rfl⟩ := hf
        exact ⟨s, hs, rfl⟩
      · right
        simp at hf
        rcases hf with rfl | rfl
        · exact Or.inl rfl
        · exact Or.inr rfl
    · simp [handleDownloadAll, hfs]
    · intro h
      exact absurd h (by simp)
    · intro first rest h
      injection h with h1 h2
      subst h1
      constructor <;> simp [handleDownloadAll, hfs]

/-- Witness for C9 at a single successful sticker. -/
theorem claim9_packaging_naming_witness :
    ("main.png", base64Part "d,AAA") ∈
      handleDownloadAll (fun u _ _ => u)
        [⟨0, "t", "raw", "d,AAA", Status.success, none⟩] ∧
    ("tab.png", base64Part "d,AAA") ∈
      handleDownloadAll (fun u _ _ => u)
        [⟨0, "t", "raw", "d,AAA", Status.success, none⟩] :=
  (claim9_packaging_naming (fun u _ _ => u)
      [⟨0, "t", "raw", "d,AAA", Status.success, none⟩]).2.2.2.2
    ⟨0, "t", "raw", "d,AAA", Status.success, none⟩ [] (by decide)

/-- C10: invoking the regenerate-single operation with an id that matches no
item of the current sticker plan returns immediately: no generation call is
issued (call count 0) and the whole application state — the result ledger
included — is returned unchanged. -/
theorem claim10_regenerate_unknown_id_noop (st : AppState) (id : Nat)
    (gen : Except String String) (proc : String → String → String)
    (h : ∀ p ∈ st.stickerPlan, p.id ≠ id) :
    handleRegenerateSingle st id gen proc = (st, 0) := by
  have hf : st.stickerPlan.find? (fun p => p.id == id) = none := by
    rw [List.find?_eq_none]
    intro p hp
    simpa using h p hp
  simp [handleRegenerateSingle, hf]

/-- Witness for C10 at a concrete state whose plan does not contain id 5. -/
theorem claim10_regenerate_unknown_id_noop_witness :
    handleRegenerateSingle
      ⟨"generating", none, "cute", 8, "", [⟨0, "hi"⟩],
        [⟨0, "hi", "", "", Status.pending, none⟩], false, 0⟩
      5 (Except.ok "img") (fun x _ => x) =
    (⟨"generating", none, "cute", 8, "", [⟨0, "hi"⟩],
        [⟨0, "hi", "", "", Status.pending, none⟩], false, 0⟩, 0) :=
  claim10_regenerate_unknown_id_noop _ 5 (Except.ok "img") (fun x _ => x)
    (by decide)

end Sticker
